import Mathlib

/-!
Shallow embedding of the real-time channel messaging core of a channel-based
chat backend (FastAPI/SQLModel application).

The embedding covers:
* `app/websockets_manger.py` — the `ConnectionManager` (connection registry):
  `connect`, `disconnect`, `broadcast`.
* `app/api/messages.py` — the message ingestion pipeline
  (`create_text_message_in_channel`, `upload_file_and_create_message`),
  `get_message_type_from_content`, `read_message`, `read_messages_in_channel`,
  `update_message`, and `get_file_access_url`.
* `app/main.py` — the websocket handshake of `websocket_endpoint`.
* `app/schemas/schemas.py` — `MessageCreatePayload.check_content_or_file`.
* `app/models_enums/enums.py` — `MessageTypeEnum`.

Modelling conventions:
* Websocket connections are opaque tokens (`Conn := Nat`); the Python
  `Dict[int, List[WebSocket]]` of the manager is an association list with the
  dict operations acting on the first matching key.
* External effects are driven by explicit oracles: `dbOk` (does the database
  commit succeed), `s3Ok` / `s3UrlOk` (does the blob-store call succeed) and
  `sendOk` (does `websocket.send_text` to a given connection succeed).
  Broadcast payloads are assumed JSON-serializable (the `json.dumps` guard of
  `broadcast` never fires for payloads produced by `MessageRead.model_dump`).
* Python falsiness of `Optional[str]` values (`None` or `""`) is `strFalsy`.
* HTTP status codes and websocket close codes are kept as the numeric values
  that the source raises.
-/

namespace ChatApp

/-- `MessageTypeEnum` from `app/models_enums/enums.py`. -/
inductive MessageTypeEnum where
  | TEXT
  | IMAGE
  | VIDEO
  | AUDIO
  | FILE
deriving DecidableEq, Repr

/-- An opaque websocket connection token. -/
abbrev Conn := Nat

/-- The manager's `active_connections : Dict[int, List[WebSocket]]`, as an
association list from channel id to the list of registered connections. -/
abbrev ConnMap := List (Nat × List Conn)

/-- Python dict read `d[k]` / `k in d`: the value at the first matching key. -/
def lookupCh : ConnMap → Nat → Option (List Conn)
  | [], _ => none
  | (k, v) :: rest, cid => if k = cid then some v else lookupCh rest cid

/-- Python dict write `d[k] = v`: replace the first matching key, else append. -/
def setCh : ConnMap → Nat → List Conn → ConnMap
  | [], cid, v => [(cid, v)]
  | (k, w) :: rest, cid, v =>
      if k = cid then (cid, v) :: rest else (k, w) :: setCh rest cid v

/-- Python dict delete `del d[k]`: remove the first matching key. -/
def delCh : ConnMap → Nat → ConnMap
  | [], _ => []
  | (k, w) :: rest, cid => if k = cid then rest else (k, w) :: delCh rest cid

/-- Python `list.remove(x)`: drop the first occurrence; `none` models the
`ValueError` raised when `x` is absent. -/
def removeFirst : List Conn → Conn → Option (List Conn)
  | [], _ => none
  | x :: xs, ws => if x = ws then some xs else (removeFirst xs ws).map (x :: ·)

/-- `ConnectionManager.connect`: accept the socket and append it to the
channel's list, creating the entry when absent. -/
def connect (m : ConnMap) (channel_id : Nat) (websocket : Conn) : ConnMap :=
  match lookupCh m channel_id with
  | none => setCh m channel_id [websocket]
  | some l => setCh m channel_id (l ++ [websocket])

/-- `ConnectionManager.disconnect`: remove the first occurrence of the socket
from the channel's list; delete the entry when the list becomes empty; a
missing channel or a missing socket (`ValueError`) leaves the map unchanged. -/
def disconnect (m : ConnMap) (channel_id : Nat) (websocket : Conn) : ConnMap :=
  match lookupCh m channel_id with
  | none => m
  | some l =>
      match removeFirst l websocket with
      | none => m
      | some l2 => if l2 = [] then delCh m channel_id else setCh m channel_id l2

/-- Result of one `broadcast` call: the manager afterwards, the connections
whose send succeeded (each list entry received one copy of the payload), and
the connections closed after a failed send. -/
structure BroadcastResult where
  manager : ConnMap
  delivered : List Conn
  closed : List Conn
deriving DecidableEq, Repr

/-- The exception-handling loop at the end of `ConnectionManager.broadcast`:
for each connection whose send raised, if it is still registered for the
channel, disconnect it and close it (best effort). -/
def cleanupFailed (channel_id : Nat) : List Conn → ConnMap → List Conn →
    ConnMap × List Conn
  | [], m, closed => (m, closed)
  | ws :: rest, m, closed =>
      match lookupCh m channel_id with
      | some l =>
          if ws ∈ l then
            cleanupFailed channel_id rest (disconnect m channel_id ws)
              (closed ++ [ws])
          else cleanupFailed channel_id rest m closed
      | none => cleanupFailed channel_id rest m closed

/-- `ConnectionManager.broadcast`: a no-op when the channel is unknown or its
snapshot is empty; otherwise every connection of the snapshot is sent the
payload concurrently (`sendOk` tells which sends succeed), and each failed
connection still registered is disconnected and closed. -/
def broadcast (m : ConnMap) (channel_id : Nat) (sendOk : Conn → Bool) :
    BroadcastResult :=
  match lookupCh m channel_id with
  | none => ⟨m, [], []⟩
  | some connections =>
      if connections = [] then ⟨m, [], []⟩
      else
        let delivered := connections.filter sendOk
        let failed := connections.filter (fun ws => !(sendOk ws))
        let cleaned := cleanupFailed channel_id failed m []
        ⟨cleaned.1, delivered, cleaned.2⟩

/-- Python falsiness of an `Optional[str]`: `None` and `""` are falsy. -/
def strFalsy : Option String → Bool
  | none => true
  | some s => s = ""

/-- The `messages` table row (`app/models/models.py`, class `Message`);
timestamps are not modelled. -/
structure Message where
  id : Nat
  author_id : Nat
  channel_id : Option Nat
  message_type : MessageTypeEnum
  content : Option String
  s3_key : Option String
  content_type : Option String
  original_filename : Option String
deriving DecidableEq, Repr

/-- The persistent and in-memory state the endpoints touch: existing channel
ids, `Membership` rows as `(user_id, channel_id)` pairs, the message store,
and the connection manager. -/
structure AppState where
  channels : List Nat
  memberships : List (Nat × Nat)
  messages : List Message
  manager : ConnMap
deriving DecidableEq, Repr

/-- `MessageCreatePayload` (`app/schemas/schemas.py`). -/
structure MessageCreatePayload where
  message_type : MessageTypeEnum := .TEXT
  content : Option String := none
  s3_key : Option String := none
  content_type : Option String := none
  original_filename : Option String := none
deriving DecidableEq, Repr

/-- `MessageCreatePayload.check_content_or_file`: the pydantic model
validator; `none` models the `ValueError` it raises (the request is then
rejected before the endpoint body runs). -/
def check_content_or_file (p : MessageCreatePayload) :
    Option MessageCreatePayload :=
  if p.message_type = .TEXT then
    if strFalsy p.content then none
    else if !(strFalsy p.s3_key) || !(strFalsy p.original_filename)
        || !(strFalsy p.content_type) then none
    else some p
  else
    if !(strFalsy p.content) then none
    else if strFalsy p.s3_key || strFalsy p.original_filename
        || strFalsy p.content_type then none
    else some p

/-- Python `str.lower()` over the characters (ASCII case mapping, which
covers MIME-type strings). -/
def pyLower (s : String) : String := ⟨s.data.map Char.toLower⟩

/-- Python `s.startswith(pre)`. -/
def pyStartsWith (s pre : String) : Bool := pre.data.isPrefixOf s.data

/-- `get_message_type_from_content` (`app/api/messages.py`). -/
def get_message_type_from_content : Option String → MessageTypeEnum
  | none => .FILE
  | some ct =>
      if ct = "" then .FILE
      else
        let mime_type := pyLower ct
        if pyStartsWith mime_type "image/" then .IMAGE
        else if pyStartsWith mime_type "video/" then .VIDEO
        else if pyStartsWith mime_type "audio/" then MessageTypeEnum.AUDIO
        else .FILE

/-- Events recorded by an ingestion call, in execution order. -/
inductive Event where
  | persist (id : Nat)
  | bcast (id : Nat)
deriving DecidableEq, Repr

/-- What one ingestion endpoint call produced: the HTTP response (`Except`
holds the raised status code), the state afterwards, and the event trace. -/
structure EndpointResult where
  response : Except Nat Message
  state : AppState
  events : List Event
deriving Repr

/-- `create_text_message_in_channel` (`app/api/messages.py`): reject non-text
types (400) and empty content (400); 404 when the channel is absent; 403
without a `Membership` row; persist (a failing commit propagates as a 500),
then broadcast, then return the stored message. The id is the one the message
store assigns. -/
def create_text_message_in_channel (s : AppState) (channel_id : Nat)
    (message_in : MessageCreatePayload) (current_user : Nat)
    (dbOk : Bool) (sendOk : Conn → Bool) : EndpointResult :=
  if message_in.message_type ≠ .TEXT then ⟨.error 400, s, []⟩
  else if strFalsy message_in.content then ⟨.error 400, s, []⟩
  else if channel_id ∉ s.channels then ⟨.error 404, s, []⟩
  else if (current_user, channel_id) ∉ s.memberships then ⟨.error 403, s, []⟩
  else if !dbOk then ⟨.error 500, s, []⟩
  else
    let db_message : Message :=
      { id := s.messages.length, author_id := current_user,
        channel_id := some channel_id, message_type := .TEXT,
        content := message_in.content, s3_key := none,
        content_type := none, original_filename := none }
    let s1 : AppState := { s with messages := s.messages ++ [db_message] }
    let b := broadcast s1.manager channel_id sendOk
    ⟨.ok db_message, { s1 with manager := b.manager },
      [.persist db_message.id, .bcast db_message.id]⟩

/-- The `UploadFile` fields the file endpoint reads. -/
structure UploadFileInput where
  filename : Option String
  content_type : Option String
deriving DecidableEq, Repr

/-- `upload_file_and_create_message` (`app/api/messages.py`): 404 when the
channel is absent; 403 without a `Membership` row; 400 when filename or
content type is missing; 500 when the blob-store upload or the database
commit fails; otherwise persist the file message and broadcast it. -/
def upload_file_and_create_message (s : AppState) (channel_id : Nat)
    (file : UploadFileInput) (current_user : Nat)
    (s3Ok : Bool) (s3_key : String) (dbOk : Bool) (sendOk : Conn → Bool) :
    EndpointResult :=
  if channel_id ∉ s.channels then ⟨.error 404, s, []⟩
  else if (current_user, channel_id) ∉ s.memberships then ⟨.error 403, s, []⟩
  else if strFalsy file.filename || strFalsy file.content_type then
    ⟨.error 400, s, []⟩
  else if !s3Ok then ⟨.error 500, s, []⟩
  else if !dbOk then ⟨.error 500, s, []⟩
  else
    let db_message : Message :=
      { id := s.messages.length, author_id := current_user,
        channel_id := some channel_id,
        message_type := get_message_type_from_content file.content_type,
        content := none, s3_key := some s3_key,
        content_type := file.content_type,
        original_filename := file.filename }
    let s1 : AppState := { s with messages := s.messages ++ [db_message] }
    let b := broadcast s1.manager channel_id sendOk
    ⟨.ok db_message, { s1 with manager := b.manager },
      [.persist db_message.id, .bcast db_message.id]⟩

/-- The full request path for posting a message: pydantic validates the body
(`check_content_or_file`; a `ValueError` rejects the request before the
endpoint body, with no state change), then the endpoint runs. -/
def post_message_request (s : AppState) (channel_id : Nat)
    (raw : MessageCreatePayload) (current_user : Nat)
    (dbOk : Bool) (sendOk : Conn → Bool) : EndpointResult :=
  match check_content_or_file raw with
  | none => ⟨.error 400, s, []⟩
  | some message_in =>
      create_text_message_in_channel s channel_id message_in current_user
        dbOk sendOk

/-- `read_message` (`app/api/messages.py`): fetch a message by id; 404 when
absent. No membership check is performed. -/
def read_message (s : AppState) (message_id : Nat) (current_user : Nat) :
    Except Nat Message :=
  match s.messages.find? (fun m => m.id = message_id) with
  | none => .error 404
  | some m => .ok m

/-- `read_messages_in_channel` (`app/api/messages.py`): 403 without a
`Membership` row, else the channel's messages (pagination and the
`created_at` ordering are not modelled). -/
def read_messages_in_channel (s : AppState) (channel_id : Nat)
    (current_user : Nat) : Except Nat (List Message) :=
  if (current_user, channel_id) ∈ s.memberships then
    .ok (s.messages.filter (fun m => m.channel_id = some channel_id))
  else .error 403

/-- `MessageUpdate` (`app/schemas/schemas.py`): `none` models an unset field
under `model_dump(exclude_unset=True)`. -/
structure MessageUpdate where
  content : Option String := none
deriving DecidableEq, Repr

/-- `update_message` (`app/api/messages.py`): 404 when the message is absent,
403 when the caller is not its author; otherwise set the provided fields on
the stored row and commit. -/
def update_message (s : AppState) (message_id : Nat)
    (message_in : MessageUpdate) (current_user : Nat) :
    Except Nat Message × AppState :=
  match s.messages.find? (fun m => m.id = message_id) with
  | none => (.error 404, s)
  | some db_message =>
      if db_message.author_id ≠ current_user then (.error 403, s)
      else
        let updated : Message :=
          match message_in.content with
          | none => db_message
          | some c => { db_message with content := some c }
        (.ok updated,
          { s with messages :=
              s.messages.map (fun m => if m.id = message_id then updated else m) })

/-- Python falsiness of an `Optional[int]` (`None` and `0` are falsy), used by
the `if not db_message.channel_id` guard of `get_file_access_url`. -/
def natFalsy : Option Nat → Bool
  | none => true
  | some n => n = 0

/-- `get_file_access_url` (`app/api/messages.py`): 404 when the message is
absent; 400 for a text message or a missing blob key; 404 when the channel id
is falsy; 403 without a `Membership` row for the message's channel; then a
presigned URL from the blob store (500 when that call fails). -/
def get_file_access_url (s : AppState) (message_id : Nat) (current_user : Nat)
    (s3UrlOk : Bool) (presigned : String) : Except Nat String :=
  match s.messages.find? (fun m => m.id = message_id) with
  | none => .error 404
  | some db_message =>
      if db_message.message_type = .TEXT || strFalsy db_message.s3_key then
        .error 400
      else if natFalsy db_message.channel_id then .error 404
      else
        match db_message.channel_id with
        | none => .error 404
        | some cid =>
            if (current_user, cid) ∉ s.memberships then .error 403
            else if s3UrlOk then .ok presigned else .error 500

/-- Outcome of the websocket handshake of `websocket_endpoint`. -/
inductive WsOutcome where
  | closed (code : Nat)
  | connected
deriving DecidableEq, Repr

/-- `websocket_endpoint` (`app/main.py`), handshake part: a failing
membership query closes the socket with 1011; a user with no `Membership`
row is closed with 1008 (policy violation) and never registered; a member is
registered with the manager. The subsequent read loop and its
`finally`-disconnect are not part of the handshake. -/
def websocket_endpoint (s : AppState) (channel_id : Nat) (current_user : Nat)
    (websocket : Conn) (dbOk : Bool) : WsOutcome × AppState :=
  if !dbOk then (.closed 1011, s)
  else if (current_user, channel_id) ∈ s.memberships then
    (.connected, { s with manager := connect s.manager channel_id websocket })
  else (.closed 1008, s)

/-! ### Registry lemmas -/

theorem lookupCh_setCh_self (m : ConnMap) (cid : Nat) (v : List Conn) :
    lookupCh (setCh m cid v) cid = some v := by
  induction m with
  | nil => simp [setCh, lookupCh]
  | cons kv rest ih =>
      obtain ⟨k, w⟩ := kv
      by_cases h : k = cid <;> simp [setCh, lookupCh, h, ih]

theorem lookupCh_setCh_ne (m : ConnMap) (cid k : Nat) (v : List Conn)
    (h : k ≠ cid) : lookupCh (setCh m cid v) k = lookupCh m k := by
  induction m with
  | nil =>
      simp only [setCh, lookupCh]
      rw [if_neg (fun hh => h hh.symm)]
  | cons kv rest ih =>
      obtain ⟨k2, w⟩ := kv
      by_cases h2 : k2 = cid
      · subst h2
        simp only [setCh, if_pos rfl, lookupCh]
        rw [if_neg (fun hh => h hh.symm), if_neg (fun hh => h hh.symm)]
      · simp only [setCh, if_neg h2, lookupCh]
        by_cases h3 : k2 = k
        · simp [h3]
        · simp [h3, ih]

theorem delCh_setCh (m : ConnMap) (cid : Nat) (v : List Conn)
    (h : lookupCh m cid = none) : delCh (setCh m cid v) cid = m := by
  induction m with
  | nil => simp [setCh, delCh]
  | cons kv rest ih =>
      obtain ⟨k, w⟩ := kv
      by_cases h2 : k = cid
      · simp [lookupCh, h2] at h
      · simp [lookupCh, h2] at h
        simp [setCh, delCh, h2, ih h]

theorem removeFirst_of_not_mem (l : List Conn) (x : Conn) (h : x ∉ l) :
    removeFirst l x = none := by
  induction l with
  | nil => rfl
  | cons a as ih =>
      simp only [List.mem_cons, not_or] at h
      simp [removeFirst, Ne.symm h.1, ih h.2]

theorem removeFirst_eq_erase (l : List Conn) (x : Conn) (h : x ∈ l) :
    removeFirst l x = some (l.erase x) := by
  induction l with
  | nil => cases h
  | cons a as ih =>
      by_cases h2 : a = x
      · subst h2
        simp [removeFirst, List.erase_cons_head]
      · have hmem : x ∈ as := by
          rcases List.mem_cons.mp h with h3 | h3
          · exact absurd h3.symm h2
          · exact h3
        simp [removeFirst, h2, ih hmem, List.erase_cons_tail,
          beq_eq_false_iff_ne.mpr h2]

/-! ### C5 -/

/-- C5: after `register(C, X)` then `unregister(C, X)` on a registry with no
entry for C, the registry is back to its old value, C is absent from the
channel map, and a broadcast to C is a no-op reaching zero connections; and
unregistering a connection not present in C's set leaves the registry
unchanged. -/
theorem C5_register_unregister :
    (∀ (m : ConnMap) (C : Nat) (X : Conn), lookupCh m C = none →
        disconnect (connect m C X) C X = m
      ∧ lookupCh (disconnect (connect m C X) C X) C = none
      ∧ ∀ sendOk, broadcast (disconnect (connect m C X) C X) C sendOk =
          ⟨disconnect (connect m C X) C X, [], []⟩)
  ∧ (∀ (m : ConnMap) (C : Nat) (X : Conn),
      (∀ l, lookupCh m C = some l → X ∉ l) → disconnect m C X = m) := by
  constructor
  · intro m C X h
    have hconn : connect m C X = setCh m C [X] := by
      simp [connect, h]
    have hback : disconnect (connect m C X) C X = m := by
      rw [hconn]
      simp [disconnect, lookupCh_setCh_self, removeFirst, delCh_setCh m C [X] h]
    refine ⟨hback, ?_, ?_⟩
    · rw [hback]; exact h
    · intro sendOk
      rw [hback] at *
      simp [broadcast, h]
  · intro m C X h
    unfold disconnect
    cases hl : lookupCh m C with
    | none => rfl
    | some l => simp [removeFirst_of_not_mem l X (h l hl)]

/-! ### C10 -/

/-- C10: registering the same connection X twice under channel C (starting
from a registry with no entry for C) leaves X present twice, a broadcast then
delivers the payload to X twice, and a single unregister removes only one
occurrence, leaving X still registered for C. -/
theorem C10_duplicate_registration (m : ConnMap) (C : Nat) (X : Conn)
    (h : lookupCh m C = none) :
    lookupCh (connect (connect m C X) C X) C = some [X, X]
  ∧ (broadcast (connect (connect m C X) C X) C
      (fun _ => true)).delivered.count X = 2
  ∧ lookupCh (disconnect (connect (connect m C X) C X) C X) C = some [X] := by
  have h1 : connect m C X = setCh m C [X] := by simp [connect, h]
  have h2 : connect (connect m C X) C X = setCh (setCh m C [X]) C [X, X] := by
    rw [h1]
    simp [connect, lookupCh_setCh_self]
  have h3 : lookupCh (connect (connect m C X) C X) C = some [X, X] := by
    rw [h2]; exact lookupCh_setCh_self _ _ _
  refine ⟨h3, ?_, ?_⟩
  · simp [broadcast, h3, cleanupFailed]
  · simp [disconnect, h3, removeFirst, lookupCh_setCh_self, h2]

/-! ### C3 -/

/-- C3: with all sends succeeding, `broadcast` delivers exactly one copy to
each connection registered to the channel at broadcast time (the channel's
set being duplicate-free), delivers nothing to a connection not registered to
that channel (in particular one registered only under other channels), and is
a no-op on a registry with no entry for the channel. -/
theorem C3_broadcast_delivery (m : ConnMap) (cid : Nat) (l : List Conn)
    (hl : lookupCh m cid = some l) (hnd : l.Nodup) :
    (∀ ws ∈ l, (broadcast m cid (fun _ => true)).delivered.count ws = 1)
  ∧ (∀ ws : Conn, ws ∉ l →
      (broadcast m cid (fun _ => true)).delivered.count ws = 0)
  ∧ (∀ (m2 : ConnMap), lookupCh m2 cid = none →
      ∀ sendOk, broadcast m2 cid sendOk = ⟨m2, [], []⟩) := by
  have hnoop : ∀ (m2 : ConnMap), lookupCh m2 cid = none →
      ∀ sendOk, broadcast m2 cid sendOk = ⟨m2, [], []⟩ := by
    intro m2 h2 sendOk
    simp [broadcast, h2]
  by_cases hl0 : l = []
  · subst hl0
    have hb : broadcast m cid (fun _ => true) = ⟨m, [], []⟩ := by
      simp [broadcast, hl]
    refine ⟨?_, ?_, hnoop⟩
    · intro ws hws; cases hws
    · intro ws _; rw [hb]; rfl
  · have hb : broadcast m cid (fun _ => true) = ⟨m, l, []⟩ := by
      simp [broadcast, hl, hl0, cleanupFailed]
    refine ⟨?_, ?_, hnoop⟩
    · intro ws hws
      rw [hb]
      exact List.count_eq_one_of_mem hnd hws
    · intro ws hws
      rw [hb]
      exact List.count_eq_zero.mpr hws

/-! ### C4 -/

theorem lookupCh_eq_none_of_not_mem_keys (m : ConnMap) (cid : Nat)
    (h : cid ∉ m.map Prod.fst) : lookupCh m cid = none := by
  induction m with
  | nil => rfl
  | cons kv rest ih =>
      obtain ⟨k, w⟩ := kv
      simp only [List.map_cons, List.mem_cons, not_or] at h
      simp only [lookupCh]
      rw [if_neg (fun hh => h.1 hh.symm)]
      exact ih h.2

theorem lookupCh_delCh_self (m : ConnMap) (cid : Nat)
    (hkeys : (m.map Prod.fst).Nodup) : lookupCh (delCh m cid) cid = none := by
  induction m with
  | nil => rfl
  | cons kv rest ih =>
      obtain ⟨k, w⟩ := kv
      simp only [List.map_cons, List.nodup_cons] at hkeys
      by_cases h : k = cid
      · subst h
        simp only [delCh, if_pos rfl]
        exact lookupCh_eq_none_of_not_mem_keys rest k hkeys.1
      · simp only [delCh, if_neg h, lookupCh]
        exact ih hkeys.2

theorem filter_unique_mem {l : List Conn} {p : Conn → Bool} {x : Conn}
    (hnd : l.Nodup) (hx : x ∈ l) (hp : ∀ y ∈ l, (p y = true ↔ y = x)) :
    l.filter p = [x] := by
  induction l with
  | nil => cases hx
  | cons a as ih =>
      rcases List.mem_cons.mp hx with rfl | hmem
      · have hpa : p x = true := (hp x (List.mem_cons_self _ _)).mpr rfl
        have hrest : as.filter p = [] := by
          apply List.filter_eq_nil_iff.mpr
          intro y hy
          have hiff := hp y (List.mem_cons_of_mem _ hy)
          have hyx : y ≠ x := fun hh => (List.nodup_cons.mp hnd).1 (hh ▸ hy)
          simp [hiff, hyx]
        rw [List.filter_cons_of_pos hpa, hrest]
      · have hax : a ≠ x := fun hh => (List.nodup_cons.mp hnd).1 (hh ▸ hmem)
        have hpa : ¬ p a = true := by
          have hiff := hp a (List.mem_cons_self _ _)
          simp [hiff, hax]
        rw [List.filter_cons_of_neg hpa]
        exact ih (List.nodup_cons.mp hnd).2 hmem
          (fun y hy => hp y (List.mem_cons_of_mem _ hy))

/-- C4: when the send to exactly one registered connection fails during a
broadcast, every other registered connection is still delivered to, the
failing connection receives nothing, it is closed and removed from the
registry entry for the channel, and the response of an ingestion call does
not depend on which sends succeed (the caller still gets the success it
would get with every send succeeding). -/
theorem C4_send_failure_isolation (m : ConnMap) (cid : Nat) (l : List Conn)
    (x : Conn) (sendOk : Conn → Bool)
    (hkeys : (m.map Prod.fst).Nodup)
    (hl : lookupCh m cid = some l) (hnd : l.Nodup) (hx : x ∈ l)
    (hfail : sendOk x = false) (hother : ∀ y ∈ l, y ≠ x → sendOk y = true) :
    (∀ y ∈ l, y ≠ x → y ∈ (broadcast m cid sendOk).delivered)
  ∧ x ∉ (broadcast m cid sendOk).delivered
  ∧ (broadcast m cid sendOk).closed = [x]
  ∧ (∀ l2, lookupCh (broadcast m cid sendOk).manager cid = some l2 → x ∉ l2)
  ∧ (∀ (s : AppState) (ch u : Nat) (p : MessageCreatePayload) (dbOk : Bool)
        (g : Conn → Bool),
      (create_text_message_in_channel s ch p u dbOk sendOk).response =
        (create_text_message_in_channel s ch p u dbOk g).response
    ∧ ∀ (file : UploadFileInput) (s3Ok : Bool) (key : String),
        (upload_file_and_create_message s ch file u s3Ok key dbOk
          sendOk).response =
        (upload_file_and_create_message s ch file u s3Ok key dbOk
          g).response) := by
  have hl0 : l ≠ [] := by
    intro hh; rw [hh] at hx; cases hx
  have hfailed : l.filter (fun ws => !(sendOk ws)) = [x] := by
    apply filter_unique_mem hnd hx
    intro y hy
    by_cases hyx : y = x
    · simp [hyx, hfail]
    · simp [hother y hy hyx, hyx]
  have hclean : cleanupFailed cid [x] m [] = (disconnect m cid x, [x]) := by
    simp [cleanupFailed, hl, hx]
  have hb : broadcast m cid sendOk =
      ⟨disconnect m cid x, l.filter sendOk, [x]⟩ := by
    simp only [broadcast, hl, if_neg hl0, hfailed, hclean]
  have hdisc : disconnect m cid x =
      if l.erase x = [] then delCh m cid else setCh m cid (l.erase x) := by
    simp [disconnect, hl, removeFirst_eq_erase l x hx]
  refine ⟨?_, ?_, ?_, ?_, ?_⟩
  · intro y hy hyx
    rw [hb]
    exact List.mem_filter.mpr ⟨hy, hother y hy hyx⟩
  · rw [hb]
    intro hmem
    have := (List.mem_filter.mp hmem).2
    rw [hfail] at this
    cases this
  · rw [hb]
  · rw [hb]
    simp only
    rw [hdisc]
    by_cases he : l.erase x = []
    · rw [if_pos he, lookupCh_delCh_self m cid hkeys]
      intro l2 h2
      cases h2
    · rw [if_neg he, lookupCh_setCh_self]
      intro l2 h2
      cases h2
      exact hnd.not_mem_erase
  · intro s ch u p dbOk g
    constructor
    · unfold create_text_message_in_channel
      split_ifs <;> rfl
    · intro file s3Ok key
      unfold upload_file_and_create_message
      split_ifs <;> rfl

/-! ### C9 -/

theorem isPrefixOf_head_ne {c d : Char} {p q t : List Char} (hcd : c ≠ d)
    (h1 : (c :: p).isPrefixOf t = true) (h2 : (d :: q).isPrefixOf t = true) :
    False := by
  cases t with
  | nil => simp [List.isPrefixOf] at h1
  | cons a as =>
      simp [List.isPrefixOf] at h1 h2
      exact hcd (h1.1.trans h2.1.symm)

theorem pyStartsWith_disjoint (s p q : String) (c d : Char)
    (cp cq : List Char) (hp : p.data = c :: cp) (hq : q.data = d :: cq)
    (hcd : c ≠ d) (h1 : pyStartsWith s p = true) :
    pyStartsWith s q = false := by
  cases h2 : pyStartsWith s q with
  | false => rfl
  | true =>
      exfalso
      unfold pyStartsWith at h1 h2
      rw [hp] at h1
      rw [hq] at h2
      exact isPrefixOf_head_ne hcd h1 h2

/-- C9: `get_message_type_from_content` is a pure total function of the
content type: it never yields `TEXT`; a missing or empty content type yields
`FILE`; a content type whose lowercasing starts with `image/`, `video/` or
`audio/` yields `IMAGE`, `VIDEO` or `AUDIO` respectively; every other content
type yields `FILE`. -/
theorem C9_message_type_derivation :
    (∀ ct : Option String, get_message_type_from_content ct ≠ .TEXT)
  ∧ (get_message_type_from_content none = .FILE
      ∧ get_message_type_from_content (some "") = .FILE)
  ∧ (∀ s : String, pyStartsWith (pyLower s) "image/" = true →
      get_message_type_from_content (some s) = .IMAGE)
  ∧ (∀ s : String, pyStartsWith (pyLower s) "video/" = true →
      get_message_type_from_content (some s) = .VIDEO)
  ∧ (∀ s : String, pyStartsWith (pyLower s) "audio/" = true →
      get_message_type_from_content (some s) = MessageTypeEnum.AUDIO)
  ∧ (∀ s : String, pyStartsWith (pyLower s) "image/" = false →
      pyStartsWith (pyLower s) "video/" = false →
      pyStartsWith (pyLower s) "audio/" = false →
      get_message_type_from_content (some s) = .FILE) := by
  have hempty : ∀ pre : String, pre ≠ "" →
      pyStartsWith (pyLower "") pre = false := by
    intro pre hpre
    unfold pyStartsWith pyLower
    cases hd : pre.data with
    | nil =>
        exfalso
        exact hpre (by cases pre with | mk d => cases hd; rfl)
    | cons a as => simp [List.isPrefixOf]
  refine ⟨?_, ⟨rfl, rfl⟩, ?_, ?_, ?_, ?_⟩
  · intro ct
    unfold get_message_type_from_content
    cases ct with
    | none => simp
    | some s =>
        by_cases h0 : s = ""
        · simp [h0]
        · simp only [if_neg h0]
          split_ifs <;> simp
  · intro s h
    by_cases h0 : s = ""
    · subst h0; exact absurd h (by rw [hempty "image/" (by decide)]; decide)
    · simp [get_message_type_from_content, h0, h]
  · intro s h
    by_cases h0 : s = ""
    · subst h0; exact absurd h (by rw [hempty "video/" (by decide)]; decide)
    · have himg : pyStartsWith (pyLower s) "image/" = false :=
        pyStartsWith_disjoint (pyLower s) "video/" "image/" 'v' 'i' _ _ rfl rfl
          (by decide) h
      simp [get_message_type_from_content, h0, h, himg]
  · intro s h
    by_cases h0 : s = ""
    · subst h0; exact absurd h (by rw [hempty "audio/" (by decide)]; decide)
    · have himg : pyStartsWith (pyLower s) "image/" = false :=
        pyStartsWith_disjoint (pyLower s) "audio/" "image/" 'a' 'i' _ _ rfl rfl
          (by decide) h
      have hvid : pyStartsWith (pyLower s) "video/" = false :=
        pyStartsWith_disjoint (pyLower s) "audio/" "video/" 'a' 'v' _ _ rfl rfl
          (by decide) h
      simp [get_message_type_from_content, h0, h, himg, hvid]
  · intro s h1 h2 h3
    by_cases h0 : s = ""
    · subst h0; simp [get_message_type_from_content]
    · simp [get_message_type_from_content, h0, h1, h2, h3]

/-! ### C1 -/

/-- A stored text message of channel 1, authored by user 1. -/
def exMsgC1 : Message :=
  { id := 0, author_id := 1, channel_id := some 1, message_type := .TEXT,
    content := some "hi", s3_key := none, content_type := none,
    original_filename := none }

/-- A concrete state: channel 1 exists, user 1 is its only member, and
message 0 is stored in channel 1. User 2 has no Membership row. -/
def exStateC1 : AppState :=
  { channels := [1], memberships := [(1, 1)], messages := [exMsgC1],
    manager := [] }

/-- C1 counterexample: user 2 holds no Membership row for channel 1, yet
`read_message` hands message 0 of channel 1 to user 2 instead of rejecting
the read with a 403 — the single-message read path has no membership check. -/
theorem C1_counterexample :
    (2, 1) ∉ exStateC1.memberships
  ∧ exMsgC1.channel_id = some 1
  ∧ read_message exStateC1 0 2 = .ok exMsgC1
  ∧ read_message exStateC1 0 2 ≠ .error 403 := by
  refine ⟨by decide, rfl, rfl, ?_⟩
  intro h
  rw [show read_message exStateC1 0 2 = .ok exMsgC1 from rfl] at h
  cases h

/-- C1 (amended): for a user `u` with no Membership row for channel `C`, the
realtime handshake is closed with 1008 (policy violation) and nothing is
registered, posting a text message to an existing channel `C` is rejected
with 403 with no persistence and no broadcast, and listing the messages of
`C` is rejected with 403; but the single-message read path `read_message`
performs no membership check and returns any stored message to any
authenticated user. -/
theorem C1_nonmember_rejection (s : AppState) (C u : Nat)
    (hmem : (u, C) ∉ s.memberships) :
    (∀ ws : Conn, websocket_endpoint s C u ws true = (.closed 1008, s))
  ∧ (∀ (p : MessageCreatePayload) (dbOk : Bool) (sendOk : Conn → Bool),
      p.message_type = .TEXT → strFalsy p.content = false →
      C ∈ s.channels →
      create_text_message_in_channel s C p u dbOk sendOk =
        ⟨.error 403, s, []⟩)
  ∧ read_messages_in_channel s C u = .error 403
  ∧ (∀ (mid : Nat) (msg : Message),
      s.messages.find? (fun m => m.id = mid) = some msg →
      read_message s mid u = .ok msg) := by
  refine ⟨?_, ?_, ?_, ?_⟩
  · intro ws
    simp [websocket_endpoint, hmem]
  · intro p dbOk sendOk htype hcontent hch
    simp [create_text_message_in_channel, htype, hcontent, hch, hmem]
  · simp [read_messages_in_channel, hmem]
  · intro mid msg hfind
    simp [read_message, hfind]

/-- C1 witness: the amended statement at the concrete state `exStateC1` for
non-member user 2 and channel 1. -/
theorem C1_nonmember_rejection_witness :
    (∀ ws : Conn, websocket_endpoint exStateC1 1 2 ws true =
      (.closed 1008, exStateC1))
  ∧ (∀ (p : MessageCreatePayload) (dbOk : Bool) (sendOk : Conn → Bool),
      p.message_type = .TEXT → strFalsy p.content = false →
      1 ∈ exStateC1.channels →
      create_text_message_in_channel exStateC1 1 p 2 dbOk sendOk =
        ⟨.error 403, exStateC1, []⟩)
  ∧ read_messages_in_channel exStateC1 1 2 = .error 403
  ∧ (∀ (mid : Nat) (msg : Message),
      exStateC1.messages.find? (fun m => m.id = mid) = some msg →
      read_message exStateC1 mid 2 = .ok msg) :=
  C1_nonmember_rejection exStateC1 1 2 (by decide)

/-! ### C8 -/

/-- C8: a signed file-access URL for a file-backed message is issued only to
members of the message's channel: for a member check that fails the call
answers 403 and no URL is produced, and any successful answer implies the
caller holds a Membership row for the owning channel. -/
theorem C8_signed_url_membership_gate (s : AppState) (mid u cid : Nat)
    (msg : Message)
    (hfind : s.messages.find? (fun m => m.id = mid) = some msg)
    (hfile : msg.message_type ≠ .TEXT)
    (hkey : strFalsy msg.s3_key = false)
    (hcid : msg.channel_id = some cid) (hcid0 : cid ≠ 0) :
    ((u, cid) ∉ s.memberships →
      ∀ (s3UrlOk : Bool) (url : String),
        get_file_access_url s mid u s3UrlOk url = .error 403)
  ∧ (∀ (s3UrlOk : Bool) (url r : String),
      get_file_access_url s mid u s3UrlOk url = .ok r →
      (u, cid) ∈ s.memberships) := by
  have hbody : ∀ (s3UrlOk : Bool) (url : String),
      get_file_access_url s mid u s3UrlOk url =
        if (u, cid) ∉ s.memberships then .error 403
        else if s3UrlOk then .ok url else .error 500 := by
    intro s3UrlOk url
    unfold get_file_access_url
    rw [hfind]
    simp only [hfile, hkey, hcid, natFalsy, Bool.or_self, if_neg,
      decide_eq_true_eq]
    simp [hfile, hkey, natFalsy, hcid0]
  constructor
  · intro hmem s3UrlOk url
    rw [hbody, if_pos hmem]
  · intro s3UrlOk url r hok
    by_cases hmem : (u, cid) ∈ s.memberships
    · exact hmem
    · rw [hbody, if_pos hmem] at hok
      cases hok

/-- A stored file-backed message of channel 1 (id 0). -/
def exMsgC8 : Message :=
  { id := 0, author_id := 1, channel_id := some 1, message_type := .FILE,
    content := none, s3_key := some "k", content_type := some "application/pdf",
    original_filename := some "a.pdf" }

/-- A concrete state for C8: channel 1, member user 1, file message 0. -/
def exStateC8 : AppState :=
  { channels := [1], memberships := [(1, 1)], messages := [exMsgC8],
    manager := [] }

/-- C8 witness: the gate at the concrete state `exStateC8`, message 0,
non-member user 2. -/
theorem C8_signed_url_membership_gate_witness :
    ((2, 1) ∉ exStateC8.memberships →
      ∀ (s3UrlOk : Bool) (url : String),
        get_file_access_url exStateC8 0 2 s3UrlOk url = .error 403)
  ∧ (∀ (s3UrlOk : Bool) (url r : String),
      get_file_access_url exStateC8 0 2 s3UrlOk url = .ok r →
      (2, 1) ∈ exStateC8.memberships) :=
  C8_signed_url_membership_gate exStateC8 0 2 1 exMsgC8 (by decide)
    (by decide) (by decide) (by decide) (by decide)

/-! ### C2 -/

theorem find?_append_fresh (msgs : List Message) (msg : Message)
    (hfresh : ∀ m ∈ msgs, m.id ≠ msg.id) :
    (msgs ++ [msg]).find? (fun m => m.id = msg.id) = some msg := by
  rw [List.find?_append]
  have h1 : msgs.find? (fun m => m.id = msg.id) = none :=
    List.find?_eq_none.mpr (fun m hm => by simp [hfresh m hm])
  rw [h1]
  simp [List.find?]

/-- C2: in both ingestion endpoints the event trace is either empty or
`[persist i, bcast i]` — a broadcast is only ever invoked after the message
is persisted; when the database commit fails after all earlier checks pass,
the call aborts with a 500, the state is unchanged and nothing is broadcast;
and on the success path, for every pattern of broadcast send failures, the
call still succeeds and the created message is stored and retrievable
through `read_message`. -/
theorem C2_persist_before_broadcast :
    (∀ (s : AppState) (C u : Nat) (p : MessageCreatePayload)
        (dbOk : Bool) (sendOk : Conn → Bool),
      (create_text_message_in_channel s C p u dbOk sendOk).events = []
      ∨ ∃ i, (create_text_message_in_channel s C p u dbOk sendOk).events =
          [.persist i, .bcast i])
  ∧ (∀ (s : AppState) (C u : Nat) (file : UploadFileInput)
        (s3Ok : Bool) (key : String) (dbOk : Bool) (sendOk : Conn → Bool),
      (upload_file_and_create_message s C file u s3Ok key dbOk sendOk).events
        = []
      ∨ ∃ i, (upload_file_and_create_message s C file u s3Ok key dbOk
          sendOk).events = [.persist i, .bcast i])
  ∧ (∀ (s : AppState) (C u : Nat) (p : MessageCreatePayload)
        (sendOk : Conn → Bool),
      p.message_type = .TEXT → strFalsy p.content = false →
      C ∈ s.channels → (u, C) ∈ s.memberships →
      create_text_message_in_channel s C p u false sendOk =
        ⟨.error 500, s, []⟩)
  ∧ (∀ (s : AppState) (C u : Nat) (file : UploadFileInput) (key : String)
        (sendOk : Conn → Bool),
      C ∈ s.channels → (u, C) ∈ s.memberships →
      strFalsy file.filename = false → strFalsy file.content_type = false →
      upload_file_and_create_message s C file u true key false sendOk =
        ⟨.error 500, s, []⟩)
  ∧ (∀ (s : AppState) (C u : Nat) (p : MessageCreatePayload)
        (sendOk : Conn → Bool),
      (∀ m ∈ s.messages, m.id ≠ s.messages.length) →
      p.message_type = .TEXT → strFalsy p.content = false →
      C ∈ s.channels → (u, C) ∈ s.memberships →
      ∃ msg,
        (create_text_message_in_channel s C p u true sendOk).response = .ok msg
      ∧ msg ∈ (create_text_message_in_channel s C p u true sendOk).state.messages
      ∧ ∀ reader : Nat,
          read_message (create_text_message_in_channel s C p u true
            sendOk).state msg.id reader = .ok msg)
  ∧ (∀ (s : AppState) (C u : Nat) (file : UploadFileInput) (key : String)
        (sendOk : Conn → Bool),
      (∀ m ∈ s.messages, m.id ≠ s.messages.length) →
      C ∈ s.channels → (u, C) ∈ s.memberships →
      strFalsy file.filename = false → strFalsy file.content_type = false →
      ∃ msg,
        (upload_file_and_create_message s C file u true key true
          sendOk).response = .ok msg
      ∧ msg ∈ (upload_file_and_create_message s C file u true key true
          sendOk).state.messages
      ∧ ∀ reader : Nat,
          read_message (upload_file_and_create_message s C file u true key
            true sendOk).state msg.id reader = .ok msg) := by
  refine ⟨?_, ?_, ?_, ?_, ?_, ?_⟩
  · intro s C u p dbOk sendOk
    unfold create_text_message_in_channel
    split_ifs <;> first | (left; rfl) | (right; exact ⟨_, rfl⟩)
  · intro s C u file s3Ok key dbOk sendOk
    unfold upload_file_and_create_message
    split_ifs <;> first | (left; rfl) | (right; exact ⟨_, rfl⟩)
  · intro s C u p sendOk htype hcontent hch hmem
    simp [create_text_message_in_channel, htype, hcontent, hch, hmem]
  · intro s C u file key sendOk hch hmem hfn hct
    simp [upload_file_and_create_message, hch, hmem, hfn, hct]
  · intro s C u p sendOk hfresh htype hcontent hch hmem
    refine ⟨{ id := s.messages.length, author_id := u, channel_id := some C,
              message_type := .TEXT, content := p.content, s3_key := none,
              content_type := none, original_filename := none },
            ?_, ?_, ?_⟩
    · simp [create_text_message_in_channel, htype, hcontent, hch, hmem]
    · simp [create_text_message_in_channel, htype, hcontent, hch, hmem]
    · intro reader
      have hstate : (create_text_message_in_channel s C p u true
          sendOk).state.messages = s.messages ++
          [{ id := s.messages.length, author_id := u, channel_id := some C,
             message_type := .TEXT, content := p.content, s3_key := none,
             content_type := none, original_filename := none }] := by
        simp [create_text_message_in_channel, htype, hcontent, hch, hmem]
      unfold read_message
      rw [hstate, find?_append_fresh s.messages _ hfresh]
  · intro s C u file key sendOk hfresh hch hmem hfn hct
    refine ⟨{ id := s.messages.length, author_id := u, channel_id := some C,
              message_type := get_message_type_from_content file.content_type,
              content := none, s3_key := some key,
              content_type := file.content_type,
              original_filename := file.filename },
            ?_, ?_, ?_⟩
    · simp [upload_file_and_create_message, hch, hmem, hfn, hct]
    · simp [upload_file_and_create_message, hch, hmem, hfn, hct]
    · intro reader
      have hstate : (upload_file_and_create_message s C file u true key true
          sendOk).state.messages = s.messages ++
          [{ id := s.messages.length, author_id := u, channel_id := some C,
             message_type := get_message_type_from_content file.content_type,
             content := none, s3_key := some key,
             content_type := file.content_type,
             original_filename := file.filename }] := by
        simp [upload_file_and_create_message, hch, hmem, hfn, hct]
      unfold read_message
      rw [hstate, find?_append_fresh s.messages _ hfresh]

/-! ### Witnesses for the registry theorems -/

/-- C3 witness: a concrete registry with channels 1 and 2. -/
theorem C3_broadcast_delivery_witness :
    (∀ ws ∈ ([5, 6] : List Conn),
      (broadcast [(1, [5, 6]), (2, [7])] 1
        (fun _ => true)).delivered.count ws = 1)
  ∧ (∀ ws : Conn, ws ∉ ([5, 6] : List Conn) →
      (broadcast [(1, [5, 6]), (2, [7])] 1
        (fun _ => true)).delivered.count ws = 0)
  ∧ (∀ (m2 : ConnMap), lookupCh m2 1 = none →
      ∀ sendOk, broadcast m2 1 sendOk = ⟨m2, [], []⟩) :=
  C3_broadcast_delivery [(1, [5, 6]), (2, [7])] 1 [5, 6] rfl (by decide)

/-- C4 witness: channel 1 holds connections 5 and 6; the send to 5 fails. -/
theorem C4_send_failure_isolation_witness :
    (∀ y ∈ ([5, 6] : List Conn), y ≠ 5 →
      y ∈ (broadcast [(1, [5, 6])] 1 (fun c => c != 5)).delivered)
  ∧ 5 ∉ (broadcast [(1, [5, 6])] 1 (fun c => c != 5)).delivered
  ∧ (broadcast [(1, [5, 6])] 1 (fun c => c != 5)).closed = [5]
  ∧ (∀ l2, lookupCh (broadcast [(1, [5, 6])] 1
      (fun c => c != 5)).manager 1 = some l2 → 5 ∉ l2)
  ∧ (∀ (s : AppState) (ch u : Nat) (p : MessageCreatePayload) (dbOk : Bool)
        (g : Conn → Bool),
      (create_text_message_in_channel s ch p u dbOk
          (fun c => c != 5)).response =
        (create_text_message_in_channel s ch p u dbOk g).response
    ∧ ∀ (file : UploadFileInput) (s3Ok : Bool) (key : String),
        (upload_file_and_create_message s ch file u s3Ok key dbOk
            (fun c => c != 5)).response =
        (upload_file_and_create_message s ch file u s3Ok key dbOk
            g).response) :=
  C4_send_failure_isolation [(1, [5, 6])] 1 [5, 6] 5 (fun c => c != 5)
    (by decide) rfl (by decide) (by decide) (by decide) (by decide)

/-- C10 witness: the empty registry, channel 1, connection 5. -/
theorem C10_duplicate_registration_witness :
    lookupCh (connect (connect [] 1 5) 1 5) 1 = some [5, 5]
  ∧ (broadcast (connect (connect [] 1 5) 1 5) 1
      (fun _ => true)).delivered.count 5 = 2
  ∧ lookupCh (disconnect (connect (connect [] 1 5) 1 5) 1 5) 1 = some [5] :=
  C10_duplicate_registration [] 1 5 rfl

/-! ### C6 -/

/-- A payload that is a well-formed *file* descriptor (so it passes the model
validator) but fails the text-endpoint payload checks. -/
def exPayloadC6 : MessageCreatePayload :=
  { message_type := .FILE, content := none, s3_key := some "k",
    content_type := some "application/pdf", original_filename := some "f.pdf" }

/-- A state in which channel 1 does not exist. -/
def exStateC6 : AppState :=
  { channels := [], memberships := [], messages := [], manager := [] }

/-- C6 counterexample: with channel 1 absent and a payload failing the text
payload check, the pipeline answers 400 (BadRequest), not the 404 (NotFound)
that a channel-existence-first ordering would give: payload validation runs
before the channel-existence check. -/
theorem C6_counterexample :
    1 ∉ exStateC6.channels
  ∧ (create_text_message_in_channel exStateC6 1 exPayloadC6 2 true
      (fun _ => true)).response = .error 400
  ∧ (create_text_message_in_channel exStateC6 1 exPayloadC6 2 true
      (fun _ => true)).response ≠ .error 404 := by
  refine ⟨by decide, rfl, ?_⟩
  intro h
  rw [show (create_text_message_in_channel exStateC6 1 exPayloadC6 2 true
      (fun _ => true)).response = .error 400 from rfl] at h
  simp at h

/-- C6 (amended): `create_text_message_in_channel` short-circuits its checks
in the order payload-type (400), content presence (400), channel existence
(404), membership (403): an earlier check's failure decides the answer
regardless of the later checks. -/
theorem C6_check_order :
    (∀ (s : AppState) (C u : Nat) (p : MessageCreatePayload) (dbOk : Bool)
        (sendOk : Conn → Bool), p.message_type ≠ .TEXT →
      create_text_message_in_channel s C p u dbOk sendOk =
        ⟨.error 400, s, []⟩)
  ∧ (∀ (s : AppState) (C u : Nat) (p : MessageCreatePayload) (dbOk : Bool)
        (sendOk : Conn → Bool),
      p.message_type = .TEXT → strFalsy p.content = true →
      create_text_message_in_channel s C p u dbOk sendOk =
        ⟨.error 400, s, []⟩)
  ∧ (∀ (s : AppState) (C u : Nat) (p : MessageCreatePayload) (dbOk : Bool)
        (sendOk : Conn → Bool),
      p.message_type = .TEXT → strFalsy p.content = false →
      C ∉ s.channels →
      create_text_message_in_channel s C p u dbOk sendOk =
        ⟨.error 404, s, []⟩)
  ∧ (∀ (s : AppState) (C u : Nat) (p : MessageCreatePayload) (dbOk : Bool)
        (sendOk : Conn → Bool),
      p.message_type = .TEXT → strFalsy p.content = false →
      C ∈ s.channels → (u, C) ∉ s.memberships →
      create_text_message_in_channel s C p u dbOk sendOk =
        ⟨.error 403, s, []⟩) := by
  refine ⟨?_, ?_, ?_, ?_⟩
  · intro s C u p dbOk sendOk htype
    simp [create_text_message_in_channel, htype]
  · intro s C u p dbOk sendOk htype hcontent
    simp [create_text_message_in_channel, htype, hcontent]
  · intro s C u p dbOk sendOk htype hcontent hch
    simp [create_text_message_in_channel, htype, hcontent, hch]
  · intro s C u p dbOk sendOk htype hcontent hch hmem
    simp [create_text_message_in_channel, htype, hcontent, hch, hmem]

/-! ### C7 -/

/-- A stored file-backed message (id 0) of channel 1, authored by user 1. -/
def exMsgC7 : Message :=
  { id := 0, author_id := 1, channel_id := some 1, message_type := .FILE,
    content := none, s3_key := some "k", content_type := some "image/png",
    original_filename := some "a.png" }

/-- A concrete state for C7: channel 1, member user 1, file message 0. -/
def exStateC7 : AppState :=
  { channels := [1], memberships := [(1, 1)], messages := [exMsgC7],
    manager := [] }

/-- The author's update payload setting text content. -/
def exUpdateC7 : MessageUpdate := { content := some "hi" }

/-- C7 counterexample: message 0 is file-backed (`s3_key` set, no content);
its author updates it with text content through `update_message`, and the
stored message afterwards carries both a text payload and a file
descriptor. -/
theorem C7_counterexample :
    exMsgC7.s3_key = some "k" ∧ exMsgC7.content = none
  ∧ (update_message exStateC7 0 exUpdateC7 1).1 =
      .ok { exMsgC7 with content := some "hi" }
  ∧ { exMsgC7 with content := some "hi" } ∈
      (update_message exStateC7 0 exUpdateC7 1).2.messages
  ∧ ({ exMsgC7 with content := some "hi" } : Message).content.isSome = true
  ∧ ({ exMsgC7 with content := some "hi" } : Message).s3_key.isSome = true := by
  exact ⟨rfl, rfl, rfl, by decide, rfl, rfl⟩

/-- C7 (amended): at creation time the text/file exclusivity holds — a
payload carrying both text content and a blob reference key is rejected by
the model validator, a rejected payload leads to a 400 with no persistence
and no broadcast, and each creation endpoint only ever stores a message with
exactly one of {text content, blob key}; but `update_message` re-checks
nothing: the author of a file-backed message can set text content on it,
after which the stored message carries both. -/
theorem C7_payload_exclusivity :
    (∀ p : MessageCreatePayload, strFalsy p.content = false →
      strFalsy p.s3_key = false → check_content_or_file p = none)
  ∧ (∀ (s : AppState) (C u : Nat) (p : MessageCreatePayload) (dbOk : Bool)
        (sendOk : Conn → Bool), check_content_or_file p = none →
      post_message_request s C p u dbOk sendOk = ⟨.error 400, s, []⟩)
  ∧ (∀ (s : AppState) (C u : Nat) (p : MessageCreatePayload) (dbOk : Bool)
        (sendOk : Conn → Bool) (msg : Message),
      (create_text_message_in_channel s C p u dbOk sendOk).response =
        .ok msg → msg.s3_key = none)
  ∧ (∀ (s : AppState) (C u : Nat) (file : UploadFileInput) (s3Ok : Bool)
        (key : String) (dbOk : Bool) (sendOk : Conn → Bool) (msg : Message),
      (upload_file_and_create_message s C file u s3Ok key dbOk
        sendOk).response = .ok msg → msg.content = none)
  ∧ ((update_message exStateC7 0 exUpdateC7 1).1 =
      .ok { exMsgC7 with content := some "hi" }
    ∧ ({ exMsgC7 with content := some "hi" } : Message).content.isSome = true
    ∧ ({ exMsgC7 with content := some "hi" } : Message).s3_key.isSome
        = true) := by
  refine ⟨?_, ?_, ?_, ?_, rfl, rfl, rfl⟩
  · intro p hc hk
    by_cases ht : p.message_type = .TEXT <;>
      simp [check_content_or_file, ht, hc, hk]
  · intro s C u p dbOk sendOk hval
    simp [post_message_request, hval]
  · intro s C u p dbOk sendOk msg hok
    unfold create_text_message_in_channel at hok
    split_ifs at hok <;> simp at hok
    rw [← hok]
  · intro s C u file s3Ok key dbOk sendOk msg hok
    unfold upload_file_and_create_message at hok
    split_ifs at hok <;> simp at hok
    rw [← hok]

end ChatApp
